import Mathlib

/-!
Verification development for the iavoqado-web client core: a shallow
embedding of the API gateway client (`src/lib/api.ts`), the onboarding
progress machine (`src/app/onboarding/processing/page.tsx` together with
`src/components/onboarding/ProcessingStatus.tsx`), the chat conversation
session (`src/components/chat/ChatInterface.tsx`) and the session store
(`auth-context`), with theorems about their view selection, polling,
message-log and error-normalization behaviour.
-/

namespace Iavoqado

/-! ## JSON values and the gateway client (`src/lib/api.ts`) -/

/-- A JSON value, as produced by `response.json()`. -/
inductive Json where
  | null
  | bool (b : Bool)
  | num (n : Int)
  | str (s : String)
  | arr (elems : List Json)
  | obj (fields : List (String × Json))

/-- JavaScript property access `data.k` on a parsed JSON value: object
lookup, `undefined` (here `none`) on any non-object receiver other than
`null` (property access on `null` throws, handled separately). -/
def Json.getField : Json → String → Option Json
  | .obj fields, k => fields.lookup k
  | _, _ => none

/-- JavaScript truthiness of a JSON value. -/
def Json.truthy : Json → Bool
  | .null => false
  | .bool b => b
  | .num n => n != 0
  | .str s => s != ""
  | .arr _ => true
  | .obj _ => true

/-- JavaScript `v || dflt` where `v` is an optional field access and the
default is a string: the default is used when the field is absent
(`undefined`) or falsy. -/
def jsOrString (v : Option Json) (dflt : String) : Json :=
  match v with
  | some j => if j.truthy then j else .str dflt
  | none => .str dflt

/-- `response.ok`: status in the inclusive range 200-299. -/
def responseOk (status : Nat) : Bool :=
  decide (200 ≤ status) && decide (status ≤ 299)

/-- Outcome of `request` in `src/lib/api.ts` after the fetch resolved:
either the typed data, a thrown `ApiError`, the raw rejection of
`response.json()` on a non-JSON body, or the `TypeError` raised by
accessing `.error` on a `null` body. -/
inductive RequestOutcome where
  | ok (data : Json)
  | apiError (status : Nat) (code : Json) (message : Json)
  | parseFailure
  | nullAccessError

/-- The response handling of `request` (`src/lib/api.ts` lines 45-61):
`const data = await response.json()` runs before the status check, then
a non-2xx status throws `new ApiError(response.status, data.error ||
'UnknownError', data.message || 'An error occurred')`, and a 2xx status
returns `data` unchanged. `body = none` models a body that is not valid
JSON. -/
def request (status : Nat) (body : Option Json) : RequestOutcome :=
  match body with
  | none => .parseFailure
  | some data =>
    if responseOk status then
      .ok data
    else
      match data with
      | .null => .nullAccessError
      | _ =>
        .apiError status
          (jsOrString (data.getField "error") "UnknownError")
          (jsOrString (data.getField "message") "An error occurred")

/-! ## Processing state data model (`src/lib/api.ts` types) -/

structure StageInfo where
  title : String
  description : String
  estimatedMinutes : ℚ

structure StageProgress where
  current : ℚ
  total : ℚ
  percentage : ℚ

structure ProcessingTiming where
  startedAt : String
  stageStartedAt : String
  completedAt : Option String

structure TableColumn where
  name : String
  originalNames : List String
  semanticType : String
  isPrimaryKey : Bool
  isForeignKey : Bool

structure ProposedTable where
  name : String
  sourceFiles : List String
  columns : List TableColumn
  estimatedRows : ℚ
  isMasterData : Bool
  mergedFrom : Option (List String)

structure DetectedRelationship where
  fromTable : String
  fromColumn : String
  toTable : String
  toColumn : String
  confidence : ℚ
  type : String

structure DetectedTerm where
  term : String
  meaning : String
  foundIn : List String
  confidence : ℚ

structure ModelSummary where
  totalTables : ℚ
  totalRows : ℚ
  totalFiles : ℚ

structure ProposedModel where
  tables : List ProposedTable
  relationships : List DetectedRelationship
  terminology : List DetectedTerm
  warnings : List String
  summary : ModelSummary

structure QuestionContext where
  columnName : Option String
  sampleValues : Option (List String)
  suggestedAnswer : Option String

structure ClarificationQuestionOption where
  value : String
  label : String
  description : Option String
  icon : Option String

structure ClarificationQuestion where
  id : String
  type : String
  question : String
  importance : String
  options : Option (List ClarificationQuestionOption)
  context : Option QuestionContext
  createdAt : String

structure ClarificationState where
  needed : Bool
  reason : String
  questions : List ClarificationQuestion
  answeredCount : ℚ
  pendingCount : ℚ
  qualityScore : Option ℚ
  llmConfidence : Option ℚ
  skipped : Option Bool

structure ValidationError where
  fileId : String
  fileName : String
  errorType : String
  message : String
  suggestion : String

structure ValidationWarning where
  fileId : String
  fileName : String
  warningType : String
  message : String

/-- `ProcessingStatus.error`: either a plain string or a structured
object `{stage?, message?, retryable?}`. -/
inductive ProcError where
  | str (s : String)
  | obj (stage : Option String) (message : Option String) (retryable : Option Bool)

/-- JavaScript truthiness of the optional `error` field: absent and the
empty string are falsy, any other string and any object are truthy. -/
def truthyError : Option ProcError → Bool
  | none => false
  | some (.str s) => s != ""
  | some (.obj _ _ _) => true

/-- The `ProcessingStatus` interface of `src/lib/api.ts`. -/
structure ProcStatus where
  hasProcessing : Bool
  stateId : Option String
  stage : Option String
  stageInfo : Option StageInfo
  progress : Option StageProgress
  timing : Option ProcessingTiming
  model : Option ProposedModel
  qualityScore : Option ℚ
  error : Option ProcError
  message : Option String
  clarification : Option ClarificationState
  validationErrors : Option (List ValidationError)
  validationWarnings : Option (List ValidationWarning)

/-- A status with no optional data, used as the base of concrete
examples. -/
def baseProcStatus : ProcStatus :=
  { hasProcessing := true, stateId := none, stage := none, stageInfo := none,
    progress := none, timing := none, model := none, qualityScore := none,
    error := none, message := none, clarification := none,
    validationErrors := none, validationWarnings := none }

/-! ## ProcessingStatus component (`src/components/onboarding/ProcessingStatus.tsx`) -/

/-- The declared stage order (lines 34-45 of the component). -/
def stageOrder : List String :=
  ["uploading", "pre_validation", "analyzing_structure",
   "awaiting_confirmation", "processing_data", "semantic_analysis",
   "needs_clarification", "validating_quality", "generating_examples",
   "ready"]

/-- JavaScript `Array.prototype.indexOf`: first index of the element, or
`-1` when absent. -/
def jsIndexOf (l : List String) (s : String) : Int :=
  match l.findIdx? (· == s) with
  | some i => (i : Int)
  | none => -1

/-- `const currentStageIndex = status.stage ? stageOrder.indexOf(status.stage) : 0`
(line 98): a falsy stage (absent or empty string) yields index 0. -/
def currentStageIndex (stage : Option String) : Int :=
  match stage with
  | some s => if s != "" then jsIndexOf stageOrder s else 0
  | none => 0

/-- `const overallProgress = ((currentStageIndex + 1) / stageOrder.length) * 100`
(line 99). -/
def overallProgress (stage : Option String) : ℚ :=
  (((currentStageIndex stage : ℚ) + 1) / (stageOrder.length : ℚ)) * 100

/-- The spec's formula for the same quantity, written from the spec's
words: `(index(stage)+1) / (number of stages)` as a percentage, with the
index taken by plain list search. -/
def specOverallProgress (s : String) : ℚ :=
  (((stageOrder.findIdx (· = s) : ℚ) + 1) / (stageOrder.length : ℚ)) * 100

/-- The pair shown by the component: the overall percentage (the
`Progreso general` bar) and, separately, the optional nested file-level
percentage (the `Paso actual` bar, lines 144-164). -/
def displayedProgress (st : ProcStatus) : ℚ × Option ℚ :=
  (overallProgress st.stage, st.progress.map (fun p => p.percentage))

/-- Callbacks the component can invoke. -/
inductive StatusCallback where
  | onComplete
  | onError
  | onClarificationNeeded
deriving DecidableEq

/-- Callbacks invoked by the component's status effect (lines 88-96):
`onComplete` when the stage is `ready`, `onClarificationNeeded` when the
stage is `needs_clarification` and the handler was passed; `onError` is
never invoked by the effect. -/
def effectCallbacks (st : ProcStatus) (hasClarificationHandler : Bool) : List StatusCallback :=
  (if st.stage = some "ready" then [.onComplete] else []) ++
  (if st.stage = some "needs_clarification" ∧ hasClarificationHandler = true then
    [.onClarificationNeeded] else [])

/-- What the component renders: the dead-end error card when
`status.error` is truthy (line 101), otherwise the progress card. -/
inductive StatusView where
  | errorCard
  | progressCard
deriving DecidableEq

def statusView (st : ProcStatus) : StatusView :=
  if truthyError st.error then .errorCard else .progressCard

/-- The callback wired to the error card's manual retry button
(`onClick=onError`, line 121). -/
def retryAction : StatusCallback := .onError

/-- Number of `onComplete` invocations made by the completion effect
over a sequence of rendered statuses. The effect's dependency array is
`[status.stage, onComplete, onClarificationNeeded]` with stable
callbacks, so the effect re-runs exactly when the stage changes (and on
the first render, modelled by a `none` previous dependency), and it
invokes `onComplete` when it runs with stage `ready`. -/
def completionInvocations : Option (Option String) → List ProcStatus → Nat
  | _, [] => 0
  | prev, s :: rest =>
    (if s.stage = some "ready" ∧ prev ≠ some s.stage then 1 else 0) +
      completionInvocations (some s.stage) rest

/-- The dependency value left behind after rendering a sequence of
statuses. -/
def depAfter : Option (Option String) → List ProcStatus → Option (Option String)
  | prev, [] => prev
  | _, s :: rest => depAfter (some s.stage) rest

/-! ## Processing page (`src/app/onboarding/processing/page.tsx`) -/

/-- `status.validationErrors && status.validationErrors.length > 0`
(line 186). -/
def hasValidationErrors (st : ProcStatus) : Bool :=
  match st.validationErrors with
  | some l => decide (0 < l.length)
  | none => false

/-- The three views the page can render for a fetched status. -/
inductive PageView where
  | validationErrorsView
  | clarificationView
  | progressView
deriving DecidableEq

/-- The page's view selection (lines 186-227): validation errors first,
then `showClarification && status.clarification`, then the normal
progress view. -/
def selectView (st : ProcStatus) (showClarification : Bool) : PageView :=
  if hasValidationErrors st then .validationErrorsView
  else if showClarification && st.clarification.isSome then .clarificationView
  else .progressView

/-- `shouldContinuePolling` (lines 40-43): keep polling unless the stage
is `ready` or `needs_clarification` or the status carries a truthy
error. -/
def shouldContinuePolling (r : ProcStatus) : Bool :=
  (r.stage != some "ready") && (r.stage != some "needs_clarification") &&
    !truthyError r.error

/-- State of the page's polling machinery: whether the clarification UI
is shown (suspending the poll effect) and whether a status fetch is in
flight or scheduled. -/
structure PollState where
  showClarification : Bool
  pending : Bool
deriving DecidableEq

/-- The page state on mount: the poll effect runs and issues the first
fetch immediately. -/
def initialPollState : PollState := { showClarification := false, pending := true }

inductive ClarAction where
  | submit
  | skip
deriving DecidableEq

/-- Events driving the page: a status fetch resolving with a result, or
`submitClarificationAnswers` / `skipClarification` resolving
(`success = true` models the promise fulfilling with `success: true`;
`success = false` models a rejection or a `success: false` payload). -/
inductive PollEvent where
  | fetchComplete (r : ProcStatus)
  | clarResolved (a : ClarAction) (success : Bool)

/-- Whether an event is a successful clarification resolution. -/
def isSuccessfulResolution : PollEvent → Bool
  | .clarResolved _ success => success
  | .fetchComplete _ => false

/-- One step of the page machinery, returning the next state and
whether a status fetch was issued during the step, or `none` when the
event cannot occur in the given state. A fetch can only complete while
one is pending; on completion the next fetch is scheduled exactly when
`shouldContinuePolling`, and the child component's effect turns on
`showClarification` when the normal view shows a `needs_clarification`
stage (no validation errors). Submit/skip handlers exist only while the
clarification view is shown; on success they clear `showClarification`,
which re-runs the poll effect and issues a fetch immediately. -/
def pollStep (s : PollState) : PollEvent → Option (PollState × Bool)
  | .fetchComplete r =>
    if s.pending then
      let continuePolling := shouldContinuePolling r
      let clar := s.showClarification ||
        (!hasValidationErrors r && (r.stage == some "needs_clarification"))
      some ({ showClarification := clar, pending := continuePolling }, continuePolling)
    else
      none
  | .clarResolved _ success =>
    if s.showClarification then
      if success then some ({ showClarification := false, pending := true }, true)
      else some (s, false)
    else
      none

/-- Number of status fetches issued while processing a list of events
(an invalid event ends the trace). -/
def fetchesIssued : PollState → List PollEvent → Nat
  | _, [] => 0
  | s, e :: rest =>
    match pollStep s e with
    | none => 0
    | some (s', issued) => (if issued then 1 else 0) + fetchesIssued s' rest

/-! ## Chat conversation session (`src/components/chat/ChatInterface.tsx`) -/

inductive Role where
  | user
  | assistant
deriving DecidableEq

structure TokenUsage where
  input : ℚ
  output : ℚ

/-- A message of the in-memory log (`DisplayMessage`). -/
structure DisplayMessage where
  id : Option String
  role : Role
  content : String
  sql : Option String
  data : Option (List Json)
  error : Option String
  timestamp : String
  tokens : Option TokenUsage
  costUsd : Option ℚ
  model : Option String
  provider : Option String
  source : Option String

/-- The `ChatResponse` shape returned by `chatApi.ask`. -/
structure ChatResponse where
  success : Bool
  answer : String
  sql : Option String
  data : Option (List Json)
  confidence : Option ℚ
  conversationId : String
  tokens : Option TokenUsage
  costUsd : Option ℚ
  source : Option String

/-- The component state touched by `sendMessage`, plus the notifications
it emits to the parent (`onConversationCreated`, `onMessageSent`). -/
structure ChatState where
  messages : List DisplayMessage
  input : String
  isLoading : Bool
  currentConversationId : Option String
  createdNotifications : List String
  messageSentCount : Nat

/-- How the awaited `chatApi.ask` call ends. -/
inductive AskOutcome where
  | success (response : ChatResponse)
  | failure (errMsg : String)

/-- JavaScript truthiness of an optional string. -/
def jsOptStrTruthy : Option String → Bool
  | none => false
  | some s => s != ""

/-- JavaScript `String.prototype.trim`: drop leading and trailing
whitespace characters. -/
def jsTrim (s : String) : String :=
  String.mk (((s.data.dropWhile Char.isWhitespace).reverse.dropWhile
    Char.isWhitespace).reverse)

/-- The optimistic user message (lines 80-84). -/
def mkUserMessage (q ts : String) : DisplayMessage :=
  { id := none, role := .user, content := q, sql := none, data := none,
    error := none, timestamp := ts, tokens := none, costUsd := none,
    model := none, provider := none, source := none }

/-- The assistant message built from a successful response
(lines 99-108). -/
def mkAssistantMessage (r : ChatResponse) (ts : String) : DisplayMessage :=
  { id := none, role := .assistant, content := r.answer, sql := r.sql,
    data := r.data, error := none, timestamp := ts, tokens := r.tokens,
    costUsd := r.costUsd, model := none, provider := none, source := r.source }

/-- The fixed user-facing fallback text of the error assistant message
(line 115). -/
def errorFallbackText : String :=
  "Lo siento, ocurrio un error al procesar tu pregunta. Por favor intenta de nuevo."

/-- The assistant message appended when the exchange fails
(lines 113-118). -/
def mkErrorMessage (e ts : String) : DisplayMessage :=
  { id := none, role := .assistant, content := errorFallbackText, sql := none,
    data := none, error := some e, timestamp := ts, tokens := none,
    costUsd := none, model := none, provider := none, source := none }

/-- The synchronous part of `sendMessage` before the network call
(lines 80-88): append the user message, clear the input, set the
in-flight flag. -/
def sendMessageStart (st : ChatState) (q ts : String) : ChatState :=
  { st with messages := st.messages ++ [mkUserMessage q ts],
            input := "", isLoading := true }

/-- The part of `sendMessage` after the awaited call settles
(lines 90-122): on success adopt a newly created conversation id when
none was active (notifying the parent), append the assistant message and
notify `onMessageSent`; on failure append the error assistant message;
in both cases clear the in-flight flag. -/
def sendMessageFinish (st : ChatState) (o : AskOutcome) (ts : String) : ChatState :=
  match o with
  | .success r =>
    let st1 :=
      if jsOptStrTruthy st.currentConversationId = false ∧ r.conversationId ≠ "" then
        { st with currentConversationId := some r.conversationId,
                  createdNotifications := st.createdNotifications ++ [r.conversationId] }
      else st
    { st1 with messages := st1.messages ++ [mkAssistantMessage r ts],
               messageSentCount := st1.messageSentCount + 1, isLoading := false }
  | .failure e =>
    { st with messages := st.messages ++ [mkErrorMessage e ts],
              isLoading := false }

/-- `sendMessage` (lines 77-123): `if (!question.trim() || isLoading)
return`, otherwise the synchronous start followed by the settled
outcome. -/
def sendMessage (st : ChatState) (q tsUser tsAsst : String) (o : AskOutcome) : ChatState :=
  if jsTrim q = "" ∨ st.isLoading = true then st
  else sendMessageFinish (sendMessageStart st q tsUser) o tsAsst

/-! ## Session store (`auth-context`, AuthProvider) -/

structure AuthUser where
  id : String
  email : String
  name : String
deriving DecidableEq

structure Organization where
  id : String
  name : String
  onboardingStatus : Option String
deriving DecidableEq

/-- Result of `authApi.me`. -/
structure MeData where
  user : AuthUser
  organization : Organization
deriving DecidableEq

/-- The provider state plus the persisted token slot
(`localStorage.getItem('iavoqado_token')`). -/
structure AuthState where
  user : Option AuthUser
  organization : Option Organization
  token : Option String
  isLoading : Bool
  storedToken : Option String
deriving DecidableEq

/-- The provider's initial state: everything absent, `isLoading := true`,
with whatever token is persisted. -/
def initialAuthState (stored : Option String) : AuthState :=
  { user := none, organization := none, token := none, isLoading := true,
    storedToken := stored }

/-- The restore effect of `AuthProvider` (lines 36-59): with no stored
token just finish loading; otherwise validate it with `authApi.me`
before setting anything — on success populate token, user and
organization, on rejection remove the persisted token and leave the
session empty; either way `isLoading` ends false and nothing is thrown
(the rejection is caught). -/
def restoreEffect (s : AuthState) (me : String → Except String MeData) : AuthState :=
  match s.storedToken with
  | none => { s with isLoading := false }
  | some tok =>
    match me tok with
    | .ok d =>
      { s with token := some tok, user := some d.user,
               organization := some d.organization, isLoading := false }
    | .error _ =>
      { s with storedToken := none, token := none, user := none,
               organization := none, isLoading := false }

/-! ## Helper lemmas -/

/-- While no fetch is pending, events other than a successful
clarification resolution issue no fetch: a fetch cannot complete, and a
failed submit/skip leaves the state unchanged. -/
lemma fetchesIssued_zero_of_unpending (s : PollState) (hp : s.pending = false)
    (es : List PollEvent) (hres : ∀ e ∈ es, isSuccessfulResolution e = false) :
    fetchesIssued s es = 0 := by
  induction es generalizing s with
  | nil => rfl
  | cons e rest ih =>
    cases e with
    | fetchComplete r =>
      simp [fetchesIssued, pollStep, hp]
    | clarResolved a success =>
      have hs : success = false := hres (.clarResolved a success) (by simp)
      subst hs
      by_cases hc : s.showClarification = true
      · simp only [fetchesIssued, pollStep, hc, if_true, if_false, Bool.false_eq_true]
        simpa using ih s hp (fun e he => hres e (List.mem_cons_of_mem _ he))
      · simp [fetchesIssued, pollStep, hc]

/-- Completion-effect invocations split over an appended run, threading
the dependency memo. -/
lemma completionInvocations_append (prev : Option (Option String))
    (xs ys : List ProcStatus) :
    completionInvocations prev (xs ++ ys) =
      completionInvocations prev xs + completionInvocations (depAfter prev xs) ys := by
  induction xs generalizing prev with
  | nil => simp [completionInvocations, depAfter]
  | cons x rest ih => simp [completionInvocations, depAfter, ih, Nat.add_assoc]

/-- The dependency memo left by a run ending in `x` is `x`'s stage. -/
lemma depAfter_concat (prev : Option (Option String)) (xs : List ProcStatus)
    (x : ProcStatus) :
    depAfter prev (xs ++ [x]) = some x.stage := by
  induction xs generalizing prev with
  | nil => rfl
  | cons y rest ih => simp [depAfter, ih]

/-! ## Concrete example data -/

def exampleValidationError : ValidationError :=
  { fileId := "f1", fileName := "ventas.xlsx", errorType := "empty",
    message := "El archivo esta vacio", suggestion := "Sube un archivo con datos" }

def exampleClarification : ClarificationState :=
  { needed := true, reason := "low_quality_score", questions := [],
    answeredCount := 0, pendingCount := 2, qualityScore := some 55,
    llmConfidence := none, skipped := none }

/-- A status carrying both non-empty validation errors and a
clarification payload. -/
def priorityStatus : ProcStatus :=
  { baseProcStatus with stage := some "needs_clarification",
                        clarification := some exampleClarification,
                        validationErrors := some [exampleValidationError] }

/-- A `needs_clarification` status with a clarification payload and no
validation errors. -/
def clarificationStatus : ProcStatus :=
  { baseProcStatus with stage := some "needs_clarification",
                        clarification := some exampleClarification }

/-- A mid-pipeline status carrying a truthy error. -/
def processingErrorStatus : ProcStatus :=
  { baseProcStatus with stage := some "processing_data",
                        error := some (.str "Fallo al procesar los archivos") }

/-- Scenario A of the spec: `processing_data` with nested progress
`{current: 3, total: 10, percentage: 30}`. -/
def scenarioAStatus : ProcStatus :=
  { baseProcStatus with stage := some "processing_data",
                        progress := some { current := 3, total := 10, percentage := 30 } }

def readyStatus : ProcStatus := { baseProcStatus with stage := some "ready" }

def chatState0 : ChatState :=
  { messages := [], input := "", isLoading := false, currentConversationId := none,
    createdNotifications := [], messageSentCount := 0 }

/-! ## Claim theorems -/

/-- C1: View-selection priority: for every fetched ProcessingState, a
non-empty validationErrors list forces the validation-error view,
regardless of the stage and even when a clarification payload is also
present; the clarification view is rendered only when validationErrors
is empty and clarification is being shown (with a payload present);
otherwise the normal progress view is rendered. -/
theorem view_selection_priority (st : ProcStatus) (showClarification : Bool) :
    (hasValidationErrors st = true →
      selectView st showClarification = .validationErrorsView) ∧
    (selectView st showClarification = .clarificationView →
      hasValidationErrors st = false ∧ showClarification = true ∧
        st.clarification.isSome = true) ∧
    (hasValidationErrors st = false →
      (showClarification && st.clarification.isSome) = false →
      selectView st showClarification = .progressView) := by
  refine ⟨fun h => by simp [selectView, h], fun h => ?_, fun h1 h2 => by simp [selectView, h1, h2]⟩
  by_cases hv : hasValidationErrors st = true
  · simp [selectView, hv] at h
  · by_cases hc : (showClarification && st.clarification.isSome) = true
    · rw [Bool.and_eq_true] at hc
      exact ⟨by simpa using hv, hc.1, hc.2⟩
    · simp [selectView, hv, hc] at h

/-- C1 witness: a status with both validation errors and a clarification
payload, while the clarification flag is on, still renders the
validation-error view. -/
theorem view_selection_priority_witness :
    selectView priorityStatus true = .validationErrorsView :=
  (view_selection_priority priorityStatus true).1 (by decide)

/-- C2: Polling suspension: once a fetched status has stage
`needs_clarification`, the step schedules no further fetch, and no
status fetch is issued by any subsequent events that do not include a
successful submit/skip resolution; a successful resolution issues a
fetch at once (polling resumes). -/
theorem polling_suspension (s s2 : PollState) (issued : Bool) (r : ProcStatus)
    (es : List PollEvent)
    (hr : r.stage = some "needs_clarification")
    (hstep : pollStep s (.fetchComplete r) = some (s2, issued))
    (hres : ∀ e ∈ es, isSuccessfulResolution e = false) :
    issued = false ∧ fetchesIssued s2 es = 0 ∧
    (∀ t u a j, pollStep t (.clarResolved a true) = some (u, j) →
      j = true ∧ u.pending = true) := by
  have hcont : shouldContinuePolling r = false := by
    simp [shouldContinuePolling, hr]
  have hkey : issued = false ∧ s2.pending = false := by
    by_cases hp : s.pending = true
    · simp [pollStep, hp, hcont] at hstep
      obtain ⟨h1, h2⟩ := hstep
      exact ⟨h2, by rw [← h1]⟩
    · simp [pollStep, hp] at hstep
  refine ⟨hkey.1, fetchesIssued_zero_of_unpending s2 hkey.2 es hres, ?_⟩
  intro t u a j h
  by_cases ht : t.showClarification = true
  · simp [pollStep, ht] at h
    exact ⟨h.2, by rw [← h.1]⟩
  · simp [pollStep, ht] at h

/-- C2 witness: after fetching a `needs_clarification` status from the
initial state, a trace holding only a failed submit resolution issues no
fetch. -/
theorem polling_suspension_witness :
    fetchesIssued { showClarification := true, pending := false }
      [PollEvent.clarResolved ClarAction.submit false] = 0 :=
  (polling_suspension initialPollState { showClarification := true, pending := false }
      false clarificationStatus [PollEvent.clarResolved ClarAction.submit false]
      rfl rfl (by decide)).2.1

/-- C3: Completion idempotence: in any rendered sequence of poll
results, a second consecutive `ready` result adds no completion-callback
invocation, and a pair of consecutive `ready` results from a fresh
render invokes the callback exactly once. -/
theorem completion_callback_idempotent (p : List ProcStatus) (r r2 : ProcStatus)
    (h1 : r.stage = some "ready") (h2 : r2.stage = some "ready") :
    completionInvocations none (p ++ [r, r2]) = completionInvocations none (p ++ [r]) ∧
    completionInvocations none [r, r2] = 1 := by
  constructor
  · have hsplit : p ++ [r, r2] = (p ++ [r]) ++ [r2] := by simp
    rw [hsplit, completionInvocations_append, depAfter_concat]
    simp [completionInvocations, h1, h2]
  · simp [completionInvocations, h1, h2]

/-- C3 witness: two consecutive `ready` results invoke the completion
callback exactly once. -/
theorem completion_callback_idempotent_witness :
    completionInvocations none [readyStatus, readyStatus] = 1 :=
  (completion_callback_idempotent [] readyStatus readyStatus rfl rfl).2

/-- C4: Per-exchange message-log postcondition: with a non-blank
question and no exchange in flight, the user message is appended
synchronously before the network call; on success the log grows by
exactly two (user then assistant); on failure the user message is kept
and a single error-flagged assistant message with the fallback text is
appended; either way the log ends with an assistant-role message. -/
theorem ask_message_log_postcondition (st : ChatState) (q tsU tsA : String)
    (hq : ¬ jsTrim q = "") (hl : st.isLoading = false) :
    (sendMessageStart st q tsU).messages = st.messages ++ [mkUserMessage q tsU] ∧
    (sendMessageStart st q tsU).isLoading = true ∧
    (∀ r, (sendMessage st q tsU tsA (.success r)).messages =
        st.messages ++ [mkUserMessage q tsU, mkAssistantMessage r tsA]) ∧
    (∀ e, (sendMessage st q tsU tsA (.failure e)).messages =
        st.messages ++ [mkUserMessage q tsU, mkErrorMessage e tsA] ∧
      (mkErrorMessage e tsA).role = .assistant ∧
      (mkErrorMessage e tsA).error = some e ∧
      (mkErrorMessage e tsA).content = errorFallbackText) ∧
    (∀ o, (sendMessage st q tsU tsA o).messages.length = st.messages.length + 2) ∧
    (∀ o, ∃ pre lastMsg, (sendMessage st q tsU tsA o).messages = pre ++ [lastMsg] ∧
      lastMsg.role = .assistant) := by
  have hmain : ∀ o, sendMessage st q tsU tsA o =
      sendMessageFinish (sendMessageStart st q tsU) o tsA := by
    intro o; simp [sendMessage, hq, hl]
  have hsucc : ∀ r, (sendMessage st q tsU tsA (.success r)).messages =
      st.messages ++ [mkUserMessage q tsU, mkAssistantMessage r tsA] := by
    intro r
    rw [hmain]
    simp only [sendMessageFinish, sendMessageStart]
    split_ifs <;> simp
  have hfail : ∀ e, (sendMessage st q tsU tsA (.failure e)).messages =
      st.messages ++ [mkUserMessage q tsU, mkErrorMessage e tsA] := by
    intro e
    rw [hmain]
    simp only [sendMessageFinish, sendMessageStart]
    simp
  refine ⟨rfl, rfl, hsucc, fun e => ⟨hfail e, rfl, rfl, rfl⟩, fun o => ?_, fun o => ?_⟩
  · cases o with
    | success r => rw [hsucc r]; simp
    | failure e => rw [hfail e]; simp
  · cases o with
    | success r =>
      exact ⟨st.messages ++ [mkUserMessage q tsU], mkAssistantMessage r tsA,
        by rw [hsucc r]; simp, rfl⟩
    | failure e =>
      exact ⟨st.messages ++ [mkUserMessage q tsU], mkErrorMessage e tsA,
        by rw [hfail e]; simp, rfl⟩

/-- C4 witness: a failed exchange keeps the user message and appends the
error assistant message. -/
theorem ask_message_log_postcondition_witness :
    (sendMessage chatState0 "hola" "t1" "t2" (.failure "network")).messages =
      chatState0.messages ++ [mkUserMessage "hola" "t1", mkErrorMessage "network" "t2"] :=
  ((ask_message_log_postcondition chatState0 "hola" "t1" "t2" (by decide) rfl).2.2.2.1
    "network").1

/-- C5: ask guard: a blank (empty or whitespace-only) question, or an
invocation while an exchange is in flight, is a complete no-op: the
message log, the in-flight flag and the active conversation identifier
are all unchanged. -/
theorem ask_guard_noop (st : ChatState) (q tsU tsA : String) (o : AskOutcome)
    (h : jsTrim q = "" ∨ st.isLoading = true) :
    sendMessage st q tsU tsA o = st ∧
    (sendMessage st q tsU tsA o).messages = st.messages ∧
    (sendMessage st q tsU tsA o).isLoading = st.isLoading ∧
    (sendMessage st q tsU tsA o).currentConversationId = st.currentConversationId := by
  have heq : sendMessage st q tsU tsA o = st := by
    unfold sendMessage
    rw [if_pos h]
  exact ⟨heq, by rw [heq], by rw [heq], by rw [heq]⟩

/-- C5 witness: a whitespace-only question leaves the session state
untouched. -/
theorem ask_guard_noop_witness :
    sendMessage chatState0 "   " "t1" "t2" (.failure "x") = chatState0 :=
  (ask_guard_noop chatState0 "   " "t1" "t2" (.failure "x") (Or.inl (by decide))).1

/-- C6 counterexample: a non-2xx response whose JSON body has a present
but empty `error` field is normalized to code `UnknownError`, not to the
body's error field as the claim states. -/
theorem gateway_error_counterexample :
    request 500 (some (.obj [("error", .str ""), ("message", .str "boom")])) =
      .apiError 500 (.str "UnknownError") (.str "boom") ∧
    request 500 (some (.obj [("error", .str ""), ("message", .str "boom")])) ≠
      .apiError 500 (.str "") (.str "boom") := by
  refine ⟨rfl, fun h => ?_⟩
  have h2 : RequestOutcome.apiError 500 (.str "UnknownError") (.str "boom") =
      RequestOutcome.apiError 500 (.str "") (.str "boom") := h
  injection h2 with hs hc hm
  injection hc with hstr
  exact absurd hstr (by decide)

/-- C6 (amended): for every non-2xx response whose body parses as a JSON
value other than null, the client raises an ApiError carrying the
status, the body's `error` field as code when present and truthy,
defaulting to `UnknownError` when absent or falsy (such as the empty
string), and likewise the `message` field defaulting to a generic
message; it never returns a success value for a non-2xx response. -/
theorem gateway_error_normalization (status : Nat) (data : Json)
    (hs : responseOk status = false) (hn : data ≠ .null) :
    request status (some data) =
      .apiError status (jsOrString (data.getField "error") "UnknownError")
        (jsOrString (data.getField "message") "An error occurred") ∧
    (∀ body d, request status body ≠ .ok d) := by
  constructor
  · cases data with
    | null => exact absurd rfl hn
    | bool b => simp [request, hs]
    | num n => simp [request, hs]
    | str s => simp [request, hs]
    | arr l => simp [request, hs]
    | obj fields => simp [request, hs]
  · intro body d h
    cases body with
    | none => simp [request] at h
    | some j => cases j <;> simp [request, hs] at h

/-- C6 witness: a 418 response with a truthy `error` field and no
`message` field carries the server code and the default message. -/
theorem gateway_error_normalization_witness :
    request 418 (some (.obj [("error", .str "Teapot")])) =
      .apiError 418 (.str "Teapot") (.str "An error occurred") :=
  ((gateway_error_normalization 418 (.obj [("error", .str "Teapot")]) (by decide)
      (fun h => Json.noConfusion h)).1).trans rfl

/-- C7: Session restore failure semantics: when the stored token is
rejected by the who-am-I operation, restore completes (the rejection is
caught, nothing is thrown), the persisted token is removed, the
in-memory token, user and organization are all absent, and the
initialization flag ends cleared. -/
theorem restore_failure_semantics (stored : String) (me : String → Except String MeData)
    (e : String) (hm : me stored = .error e) :
    restoreEffect (initialAuthState (some stored)) me =
      { user := none, organization := none, token := none, isLoading := false,
        storedToken := none } := by
  simp [restoreEffect, initialAuthState, hm]

/-- C7 witness: a concrete rejected token yields the empty,
initialized session. -/
theorem restore_failure_semantics_witness :
    restoreEffect (initialAuthState (some "stale"))
        (fun _ => Except.error "Unauthorized") =
      { user := none, organization := none, token := none, isLoading := false,
        storedToken := none } :=
  restore_failure_semantics "stale" (fun _ => Except.error "Unauthorized") "Unauthorized" rfl

/-- C8: Overall progress fraction: for every status whose stage is in
the declared stage order, the displayed overall progress equals
`(index(stage)+1) / (number of stages)` as a percentage; in Scenario A
(`processing_data` with nested progress 30%) the overall bar shows 50
while the nested file-level 30 is shown separately, and the two are
distinct. -/
theorem overall_progress_fraction (s : String) (h : s ∈ stageOrder) :
    overallProgress (some s) = specOverallProgress s ∧
    displayedProgress scenarioAStatus = (50, some 30) ∧
    overallProgress (some "processing_data") ≠ 30 := by
  refine ⟨?_, ?_, ?_⟩
  · fin_cases h <;>
      simp +decide [overallProgress, specOverallProgress, currentStageIndex,
        jsIndexOf, stageOrder, List.findIdx?, List.findIdx, List.findIdx.go]
  · simp +decide [displayedProgress, scenarioAStatus, baseProcStatus, overallProgress,
      currentStageIndex, jsIndexOf, stageOrder, List.findIdx?]
    norm_num
  · simp +decide [overallProgress, currentStageIndex, jsIndexOf, stageOrder,
      List.findIdx?]
    norm_num

/-- C8 witness: for `processing_data` the code's overall progress equals
the spec's formula. -/
theorem overall_progress_fraction_witness :
    overallProgress (some "processing_data") = specOverallProgress "processing_data" :=
  (overall_progress_fraction "processing_data" (by decide)).1

/-- C9 counterexample: for a fetched status carrying an error, the
status effect invokes no callback at all — in particular not the error
callback — while polling does stop. -/
theorem terminal_error_counterexample :
    effectCallbacks processingErrorStatus true = [] ∧
    shouldContinuePolling processingErrorStatus = false := by
  exact ⟨by decide, by decide⟩

/-- C9 (amended): for every fetched ProcessingState carrying a truthy
error, polling stops (no further fetch is scheduled), the error callback
is not invoked by the status effect, and the dead-end error view is
rendered, whose manual retry action is wired to the error callback. -/
theorem terminal_error_transition (st : ProcStatus) (hc : Bool)
    (h : truthyError st.error = true) :
    shouldContinuePolling st = false ∧
    StatusCallback.onError ∉ effectCallbacks st hc ∧
    statusView st = .errorCard ∧
    retryAction = StatusCallback.onError := by
  refine ⟨by simp [shouldContinuePolling, h], ?_, by simp [statusView, h], rfl⟩
  unfold effectCallbacks
  split_ifs <;> simp

/-- C9 witness: a concrete mid-pipeline error status stops polling, is
rendered as the error card, and triggers no error callback from the
effect. -/
theorem terminal_error_transition_witness :
    shouldContinuePolling processingErrorStatus = false ∧
    StatusCallback.onError ∉ effectCallbacks processingErrorStatus true ∧
    statusView processingErrorStatus = .errorCard ∧
    retryAction = StatusCallback.onError :=
  terminal_error_transition processingErrorStatus true (by decide)

/-- C10: Implicit gateway edge case: the body is parsed before the
status is checked, so any response with a non-JSON body fails with the
raw parse failure (never the ApiError shape), even when the status is
2xx; and a 2xx JSON body is returned unchanged. -/
theorem parse_precedes_status_check (status : Nat) :
    request status none = .parseFailure ∧
    (∀ code msg, request status none ≠ .apiError status code msg) ∧
    (∀ data, responseOk status = true → request status (some data) = .ok data) := by
  refine ⟨rfl, fun code msg h => by simp [request] at h, fun data h => by simp [request, h]⟩

/-- C10 witness: a 200 response with a non-JSON body is a raw parse
failure, and a 200 JSON body is returned unchanged. -/
theorem parse_precedes_status_check_witness :
    request 200 none = .parseFailure ∧
    request 200 (some (.str "ok")) = .ok (.str "ok") :=
  ⟨(parse_precedes_status_check 200).1,
    (parse_precedes_status_check 200).2.2 (.str "ok") (by decide)⟩

end Iavoqado
